import Mathlib

/-!
Verification of the event-sourced decision/fold engine of
bicatu/event-sourcing-equinox (src/src/emmett.ts).

The TypeScript source is shallowly embedded:

* JavaScript numbers that only ever hold account amounts are modelled as
  Int; versions (BigInt in the source) are modelled as Nat.
* JavaScript runtime values reachable in the codec are modelled by JVal
  (undefined, null, number, string); event payload objects are flat
  association lists of string keys to JVal.
* The codec's wire payload (type string or undefined in the source) is
  modelled by WireData: the JS undefined, the empty string, or a
  well-formed JSON object text represented by its parsed field list.
  JSON.stringify of a payload object is serializeObj (undefined-valued
  keys are dropped); JSON.parse of the guarded text event.data or empty
  object is parseData.
* Decision functions throw Error in the source; they are modelled as
  Except String (List Event).
* Decider.transact comes from the external @equinox-js/core dependency;
  it is modelled from the spec's Decider state machine (section 4.4) in
  the single-writer case, instrumented with a log of the decision
  results it submits so that transaction counts are observable.
-/

namespace EmmettEquinox

/-- Account status enumeration from the source: NonExistent, Open or Closed. -/
inductive AccountStatus where
  | NonExistent
  | Open
  | Closed
deriving DecidableEq, Repr

namespace Events

/-- Typed domain events, mirroring the Events.Event union of the source:
Opened carries status, name and amount; Deposited and Withdrawn carry an amount. -/
inductive Event where
  | Opened (status : AccountStatus) (name : String) (amount : Int)
  | Deposited (amount : Int)
  | Withdrawn (amount : Int)
deriving DecidableEq, Repr

/-- JavaScript runtime values reachable in the codec: undefined, null,
numbers and strings. Payload objects are modelled separately as flat
association lists (JObj). -/
inductive JVal where
  | undef
  | null
  | num (n : Int)
  | str (s : String)
deriving DecidableEq, Repr

/-- A JavaScript object as it appears in event payloads: an ordered list of
key-value pairs (insertion order, as JS preserves it). -/
abbrev JObj := List (String × JVal)

/-- The codec's wire payload, of TypeScript type string or undefined:
the JS undefined (no data), the empty string, or a well-formed JSON object
text represented by its parsed field list. -/
inductive WireData where
  | undef
  | emptyStr
  | jsonText (fields : JObj)
deriving DecidableEq, Repr

/-- A transport event as the codec sees it: a type tag and a wire payload. -/
structure Wire where
  type : String
  data : WireData
deriving DecidableEq, Repr

/-- A domain event as a JavaScript runtime value: a type tag plus an
optional payload object; data none models an object with no data key. -/
structure RuntimeEvent where
  type : String
  data : Option JObj
deriving DecidableEq, Repr

/-- JSON.stringify applied to a payload object: keys whose value is the JS
undefined are dropped; all other values serialize as themselves. -/
def serializeObj (fields : JObj) : JObj :=
  fields.filterMap fun p =>
    match p.2 with
    | .undef => none
    | v => some (p.1, v)

/-- JSON.parse of the guarded expression event.data or the empty-object
text: both the JS undefined and the empty string are falsy, so either one
parses the text of the empty object; otherwise the stored JSON text is
parsed to its field list. -/
def parseData : WireData → JObj
  | .undef => []
  | .emptyStr => []
  | .jsonText fields => fields

/-- JavaScript property access data.k on a parsed payload object: the first
binding of the key, or the JS undefined when the key is absent. -/
def getField (fields : JObj) (k : String) : JVal :=
  ((fields.lookup k).getD .undef : JVal)

/-- Events.codec.encode from the source: data is JSON.stringify(event.data)
when the event has a data key, and the JS undefined otherwise. -/
def encode (e : RuntimeEvent) : Wire :=
  match e.data with
  | some p => { type := e.type, data := .jsonText (serializeObj p) }
  | none => { type := e.type, data := .undef }

/-- Events.codec.decode from the source: parse event.data (or the empty
object when it is undefined or empty), then switch on the type tag,
rebuilding the payload field by field; an unrecognized tag falls off the
switch and the function returns undefined (none). -/
def decode (w : Wire) : Option RuntimeEvent :=
  let data := parseData w.data
  match w.type with
  | "Opened" =>
      some { type := w.type,
             data := some [("status", getField data "status"),
                           ("name", getField data "name"),
                           ("amount", getField data "amount")] }
  | "Deposited" =>
      some { type := w.type, data := some [("amount", getField data "amount")] }
  | "Withdrawn" =>
      some { type := w.type, data := some [("amount", getField data "amount")] }
  | _ => none

/-- The runtime image of the typed domain events: an Opened event whose
payload has a valid status string, a name string and a numeric amount, or a
Deposited or Withdrawn event with a numeric amount, with fields in the
order the source constructs them. -/
def Representable (e : RuntimeEvent) : Prop :=
  (∃ st nm am, (st = "NonExistent" ∨ st = "Open" ∨ st = "Closed") ∧
      e = ⟨"Opened", some [("status", .str st), ("name", .str nm), ("amount", .num am)]⟩)
  ∨ (∃ am, e = ⟨"Deposited", some [("amount", .num am)]⟩)
  ∨ (∃ am, e = ⟨"Withdrawn", some [("amount", .num am)]⟩)

end Events

namespace Fold

/-- Aggregate state from the source: status, name and amount. -/
structure State where
  status : AccountStatus
  name : String
  amount : Int
deriving DecidableEq, Repr

/-- Initial state from the source: NonExistent, empty name, amount 0. -/
def initial : State := { status := .NonExistent, name := "", amount := 0 }

/-- Fold.evolve from the source: Opened sets status to the literal Open and
name from the payload, Deposited adds the amount, Withdrawn subtracts it. -/
def evolve (state : State) (event : Events.Event) : State :=
  match event with
  | .Opened _ name _ => { state with status := .Open, name := name }
  | .Deposited amount => { state with amount := state.amount + amount }
  | .Withdrawn amount => { state with amount := state.amount - amount }

/-- Fold.fold from the source: events.reduce(evolve, state). -/
def fold (state : State) (events : List Events.Event) : State :=
  events.foldl evolve state

end Fold

namespace Decide

/-- Decide.open from the source (open is a reserved word here, so the
definition is named openAccount): unconditionally emits one Opened event
with status Open, the supplied name and amount 0. -/
def openAccount (name : String) (_state : Fold.State) : List Events.Event :=
  [.Opened .Open name 0]

/-- Decide.deposit from the source: throws Account is not open unless the
state is Open, otherwise emits one Deposited event. -/
def deposit (amount : Int) (state : Fold.State) : Except String (List Events.Event) :=
  if state.status ≠ .Open then .error "Account is not open"
  else .ok [.Deposited amount]

/-- Decide.withdraw from the source: throws Account is not open unless Open,
throws Insufficient funds if state.amount < amount, otherwise emits one
Withdrawn event. -/
def withdraw (amount : Int) (state : Fold.State) : Except String (List Events.Event) :=
  if state.status ≠ .Open then .error "Account is not open"
  else if state.amount < amount then .error "Insufficient funds"
  else .ok [.Withdrawn amount]

end Decide

namespace StoreAdapter

/-- The options record the adapter's aggregateStream destructures: the
evolve function and the initial-state thunk (the read callback it also
destructures is never used by the source and is omitted). -/
structure AggregateStreamOptions (σ ε : Type) where
  evolve : σ → ε → σ
  getInitialState : Unit → σ

/-- Result shape of aggregateStream: the current stream version and state. -/
structure AggregateStreamResult (σ : Type) where
  currentStreamVersion : Nat
  state : σ
deriving Repr

/-- getDynamoDbEventStore(...).aggregateStream from the source: it sets
state to getInitialState() and currentStreamVersion to 0 and returns them.
It never invokes read or evolve, so the stream name and the stream's stored
events (passed here to make that observable) do not affect the result. -/
def aggregateStream {σ ε : Type} (_streamName : String)
    (options : AggregateStreamOptions σ ε) (_streamEvents : List ε) :
    AggregateStreamResult σ :=
  { currentStreamVersion := 0, state := options.getInitialState () }

/-- Store state for one resolved stream: the committed events plus an
instrumentation log of the decision results submitted through the Decider,
in order, so that the number of Decider transactions is observable. -/
structure Store where
  stream : List Events.Event
  decisions : List (List Events.Event)
deriving DecidableEq, Repr

/-- Modelled from the spec: Decider.transact of the external
@equinox-js/core dependency, following the spec's Decider state machine
(load, decide, append) in the single-writer case where no concurrent
conflict occurs. It folds the stream to the current state, runs the
decision function, appends the resulting events atomically (skipping the
append when the decision is empty), and yields the post-append version,
the count of committed events. The decision log records one entry per
transaction. -/
def transact (store : Store) (decide : Fold.State → List Events.Event) :
    Store × Nat :=
  let state := Fold.fold Fold.initial store.stream
  let newEvents := decide state
  let stream' := if newEvents.isEmpty then store.stream else store.stream ++ newEvents
  ({ stream := stream', decisions := store.decisions ++ [newEvents] }, stream'.length)

/-- Result shape of appendToStream: the next expected stream version. -/
structure AppendToStreamResult where
  nextExpectedStreamVersion : Nat
deriving DecidableEq, Repr

/-- getDynamoDbEventStore(...).appendToStream from the source: it resolves a
Decider for the stream, calls decider.transact exactly once with the
decision function that returns the whole batch regardless of state
(ignoring the transaction's own result, which the source does not await),
and returns BigInt(events.length) as nextExpectedStreamVersion. -/
def appendToStream (store : Store) (events : List Events.Event) :
    Store × AppendToStreamResult :=
  let decide : Fold.State → List Events.Event := fun _ => events
  let store' := (transact store decide).1
  (store', { nextExpectedStreamVersion := events.length })

end StoreAdapter

/-!
Theorems settling the claims.
-/

/-- C1 (counterexample to the claim as stated): against a stream that
already holds one event, appendToStream returns nextExpectedStreamVersion
equal to the batch length (1), which is not the post-append stream version
(2): the result does not surface the post-append version in general. -/
theorem appendToStream_version_claim_counterexample :
    (StoreAdapter.appendToStream ⟨[.Opened .Open "Alice" 0], []⟩
        [.Deposited 100]).2.nextExpectedStreamVersion
      ≠ (StoreAdapter.appendToStream ⟨[.Opened .Open "Alice" 0], []⟩
        [.Deposited 100]).1.stream.length := by
  decide

/-- C1 (amended): appendToStream performs exactly one Decider transaction
(one new decision-log entry) whose decision result is the whole batch, the
whole batch is appended atomically, and the returned
nextExpectedStreamVersion is the batch's event count, which equals the
post-append stream version exactly when the stream was empty before the
call. -/
theorem appendToStream_single_batch_transaction (store : StoreAdapter.Store)
    (events : List Events.Event) :
    (StoreAdapter.appendToStream store events).1.decisions = store.decisions ++ [events]
    ∧ (StoreAdapter.appendToStream store events).1.stream = store.stream ++ events
    ∧ (StoreAdapter.appendToStream store events).2.nextExpectedStreamVersion = events.length
    ∧ (store.stream = [] →
        (StoreAdapter.appendToStream store events).2.nextExpectedStreamVersion
          = (StoreAdapter.appendToStream store events).1.stream.length) := by
  have hstream : (StoreAdapter.appendToStream store events).1.stream
      = store.stream ++ events := by
    unfold StoreAdapter.appendToStream StoreAdapter.transact
    by_cases h : events.isEmpty
    · simp [h, List.isEmpty_iff.mp h]
    · simp [h]
  refine ⟨rfl, hstream, rfl, fun h0 => ?_⟩
  rw [hstream, h0]
  simp only [List.nil_append]
  rfl

/-- C1 witness: appending the batch of four events of the source's own
scenario to an empty stream in one call yields version 4, which is the
post-append stream version. -/
theorem appendToStream_single_batch_transaction_witness :
    ((⟨[], []⟩ : StoreAdapter.Store).stream = [])
    ∧ (StoreAdapter.appendToStream ⟨[], []⟩
        [.Opened .Open "John Doe" 0, .Deposited 100, .Deposited 140,
          .Deposited 90]).2.nextExpectedStreamVersion
      = (StoreAdapter.appendToStream ⟨[], []⟩
        [.Opened .Open "John Doe" 0, .Deposited 100, .Deposited 140,
          .Deposited 90]).1.stream.length
    ∧ (StoreAdapter.appendToStream ⟨[], []⟩
        [.Opened .Open "John Doe" 0, .Deposited 100, .Deposited 140,
          .Deposited 90]).2.nextExpectedStreamVersion = 4 :=
  ⟨rfl,
   (appendToStream_single_batch_transaction ⟨[], []⟩
     [.Opened .Open "John Doe" 0, .Deposited 100, .Deposited 140,
       .Deposited 90]).2.2.2 rfl,
   by decide⟩

/-- C2: the adapter's aggregateStream reports version 0 with state equal to
the fold of the first 0 events of the stream, which is also the fold of the
(zero) events it actually read: the state it reports at the version it
reports is exactly the fold of that prefix, produced by no means other than
getInitialState, the fold of the empty event list. -/
theorem aggregateStream_state_is_fold_of_reported_prefix (streamName : String)
    (es : List Events.Event) :
    (StoreAdapter.aggregateStream streamName
        ⟨Fold.evolve, fun _ => Fold.initial⟩ es).currentStreamVersion = 0
    ∧ (StoreAdapter.aggregateStream streamName
        ⟨Fold.evolve, fun _ => Fold.initial⟩ es).state
      = Fold.fold Fold.initial
          (es.take (StoreAdapter.aggregateStream streamName
            ⟨Fold.evolve, fun _ => Fold.initial⟩ es).currentStreamVersion)
    ∧ (StoreAdapter.aggregateStream streamName
        ⟨Fold.evolve, fun _ => Fold.initial⟩ es).state
      = Fold.fold Fold.initial [] :=
  ⟨rfl, rfl, rfl⟩

/-- C3: fold distributes over splitting the event list at any point k with
k at most the length: folding all events from the initial state equals
folding the suffix from the fold of the prefix. -/
theorem fold_split_at_any_point (es : List Events.Event) (k : Nat)
    (h : k ≤ es.length) :
    Fold.fold Fold.initial es
      = Fold.fold (Fold.fold Fold.initial (es.take k)) (es.drop k) := by
  unfold Fold.fold
  rw [← List.foldl_append, List.take_append_drop]

/-- C3 witness: the split property at a concrete three-event list and split
point 2. -/
theorem fold_split_at_any_point_witness :
    2 ≤ ([.Opened .Open "Alice" 0, .Deposited 100, .Withdrawn 30] :
          List Events.Event).length
    ∧ Fold.fold Fold.initial
        [.Opened .Open "Alice" 0, .Deposited 100, .Withdrawn 30]
      = Fold.fold
          (Fold.fold Fold.initial
            (([.Opened .Open "Alice" 0, .Deposited 100, .Withdrawn 30] :
              List Events.Event).take 2))
          (([.Opened .Open "Alice" 0, .Deposited 100, .Withdrawn 30] :
            List Events.Event).drop 2) :=
  ⟨by decide,
   fold_split_at_any_point
     [.Opened .Open "Alice" 0, .Deposited 100, .Withdrawn 30] 2 (by decide)⟩

/-- C4: for every runtime event in the image of the typed domain events
(every Opened, Deposited or Withdrawn event with a well-typed payload),
decoding its encoding returns exactly the original event. -/
theorem decode_encode_roundtrip (e : Events.RuntimeEvent)
    (h : Events.Representable e) :
    Events.decode (Events.encode e) = some e := by
  rcases h with ⟨st, nm, am, _, rfl⟩ | ⟨am, rfl⟩ | ⟨am, rfl⟩ <;> rfl

/-- C4 witness: the round-trip at a concrete Deposited event. -/
theorem decode_encode_roundtrip_witness :
    Events.Representable ⟨"Deposited", some [("amount", .num 42)]⟩
    ∧ Events.decode (Events.encode ⟨"Deposited", some [("amount", .num 42)]⟩)
      = some ⟨"Deposited", some [("amount", .num 42)]⟩ :=
  ⟨Or.inr (Or.inl ⟨42, rfl⟩),
   decode_encode_roundtrip ⟨"Deposited", some [("amount", .num 42)]⟩
     (Or.inr (Or.inl ⟨42, rfl⟩))⟩

/-- C5: on an Open state, withdraw fails with Insufficient funds (emitting
no events) whenever the requested amount exceeds the balance, and with the
amount equal to the balance it succeeds with one Withdrawn event whose
application yields balance 0. -/
theorem withdraw_insufficient_and_exact (state : Fold.State) (amount : Int)
    (hopen : state.status = .Open) :
    (state.amount < amount →
      Decide.withdraw amount state = .error "Insufficient funds")
    ∧ (amount = state.amount →
        Decide.withdraw amount state = .ok [.Withdrawn amount]
        ∧ Fold.evolve state (.Withdrawn amount) = { state with amount := 0 }) := by
  constructor
  · intro hlt
    simp [Decide.withdraw, hopen, hlt]
  · intro heq
    subst heq
    refine ⟨by simp [Decide.withdraw, hopen], ?_⟩
    simp [Fold.evolve]

/-- C5 witness: on an Open account holding 5, withdrawing 7 fails with
Insufficient funds and withdrawing exactly 5 succeeds. -/
theorem withdraw_insufficient_and_exact_witness :
    Decide.withdraw 7 ⟨.Open, "Alice", 5⟩ = .error "Insufficient funds"
    ∧ Decide.withdraw 5 ⟨.Open, "Alice", 5⟩ = .ok [.Withdrawn 5] :=
  ⟨(withdraw_insufficient_and_exact ⟨.Open, "Alice", 5⟩ 7 (by decide)).1 (by decide),
   ((withdraw_insufficient_and_exact ⟨.Open, "Alice", 5⟩ 5 (by decide)).2 (by decide)).1⟩

/-- C6: on a state whose status is NonExistent or Closed, both deposit and
withdraw fail with Account is not open for every amount, emitting no
events. -/
theorem deposit_withdraw_require_open (state : Fold.State) (amount : Int)
    (h : state.status = .NonExistent ∨ state.status = .Closed) :
    Decide.deposit amount state = .error "Account is not open"
    ∧ Decide.withdraw amount state = .error "Account is not open" := by
  have hne : state.status ≠ .Open := by
    rcases h with h | h <;> simp [h]
  exact ⟨by simp [Decide.deposit, hne], by simp [Decide.withdraw, hne]⟩

/-- C6 witness: on a Closed account, a deposit of 3 and a withdrawal of 3
both fail with Account is not open. -/
theorem deposit_withdraw_require_open_witness :
    Decide.deposit 3 ⟨.Closed, "Bob", 10⟩ = .error "Account is not open"
    ∧ Decide.withdraw 3 ⟨.Closed, "Bob", 10⟩ = .error "Account is not open" :=
  deposit_withdraw_require_open ⟨.Closed, "Bob", 10⟩ 3 (by decide)

/-- C7: decode of a transport event whose type tag is none of Opened,
Deposited or Withdrawn returns none (the JS undefined), for every wire
payload, rather than raising: the switch has no default and control falls
off the end of the function. -/
theorem decode_unrecognized_tag_returns_none (w : Events.Wire)
    (h1 : w.type ≠ "Opened") (h2 : w.type ≠ "Deposited")
    (h3 : w.type ≠ "Withdrawn") :
    Events.decode w = none := by
  unfold Events.decode
  split <;> simp_all

/-- C7 witness: decode of a Bogus-tagged event with no payload is none. -/
theorem decode_unrecognized_tag_returns_none_witness :
    Events.decode ⟨"Bogus", .undef⟩ = none :=
  decode_unrecognized_tag_returns_none ⟨"Bogus", .undef⟩
    (by decide) (by decide) (by decide)

/-- C8: for every event carrying no payload, encode produces a wire record
whose data field is set to the undefined marker, a definite value of the
always-present data field distinct from the empty string and from every
serialized payload text. -/
theorem encode_missing_payload_marker (e : Events.RuntimeEvent)
    (h : e.data = none) :
    (Events.encode e).data = .undef
    ∧ Events.WireData.undef ≠ .emptyStr
    ∧ (∀ fields, Events.WireData.undef ≠ .jsonText fields) := by
  cases e with
  | mk t d =>
    cases d with
    | none => exact ⟨rfl, by decide, fun fields => by simp⟩
    | some p => simp at h

/-- C8 witness: encoding a concrete payload-less event yields the undefined
data marker. -/
theorem encode_missing_payload_marker_witness :
    ((⟨"Nothing", none⟩ : Events.RuntimeEvent).data = none)
    ∧ ((Events.encode ⟨"Nothing", none⟩).data = .undef
        ∧ Events.WireData.undef ≠ .emptyStr
        ∧ (∀ fields, Events.WireData.undef ≠ .jsonText fields)) :=
  ⟨rfl, encode_missing_payload_marker ⟨"Nothing", none⟩ rfl⟩

/-- C9: evolve applied to any Opened event sets status to the literal Open
and name from the payload, and leaves amount equal to the previous state's
amount; the payload's status and amount arguments do not occur in the
result, so they are ignored entirely. -/
theorem evolve_opened_frame (state : Fold.State) (st : AccountStatus)
    (nm : String) (am : Int) :
    Fold.evolve state (.Opened st nm am)
      = { status := .Open, name := nm, amount := state.amount } :=
  rfl

/-- C10: decode treats an absent data field and an empty-string data field
identically, parsing both as the empty object before the tag switch, and
for each recognized tag yields an event whose payload fields are all the JS
undefined rather than a decode failure. -/
theorem decode_conflates_absent_and_empty_data :
    (∀ t : String, Events.decode ⟨t, .undef⟩ = Events.decode ⟨t, .emptyStr⟩)
    ∧ Events.parseData .undef = Events.parseData .emptyStr
    ∧ Events.decode ⟨"Opened", .emptyStr⟩
      = some ⟨"Opened", some [("status", .undef), ("name", .undef),
          ("amount", .undef)]⟩
    ∧ Events.decode ⟨"Deposited", .emptyStr⟩
      = some ⟨"Deposited", some [("amount", .undef)]⟩
    ∧ Events.decode ⟨"Withdrawn", .emptyStr⟩
      = some ⟨"Withdrawn", some [("amount", .undef)]⟩ :=
  ⟨fun _ => rfl, rfl, rfl, rfl, rfl⟩

end EmmettEquinox
